import Mathlib

/-!
Shallow embedding of the session engine of meshcore-cli
(src/src/meshcore_cli/meshcore_cli.py): target resolution, the
acknowledgment/response wait protocol with its timeout policy, the
interactive-loop dispatch, the last-sender slot, and promotion of pending
contacts.  Python strings are modelled as lists of characters (a Python
`str` is a sequence of code points), Python dicts for contacts as records,
Python `float` timeout values as rationals, and the external device/event
collaborator (the `meshcore` library) as an explicit environment of
functions.  Registry lookups (`get_contact_by_name`,
`get_contact_by_key_prefix`, `pop_pending_contact`) live in the external
`meshcore` package, not in this repository's sources; they are modelled
from the spec's Registry contract (§4.4) and marked as such below.
-/

namespace MeshcoreCli

/-- A Python string, as its sequence of code points. -/
abbrev PyStr := List Char

/-- Python `s.startswith(pre)`. -/
def pyStartsWith (s pre : PyStr) : Bool := pre.isPrefixOf s

/-- Python whitespace stripped by `int()` / `float()` (ASCII subset). -/
def pyWsChar (c : Char) : Bool :=
  c == ' ' || c == '\t' || c == '\n' || c == '\r' ||
  c == Char.ofNat 11 || c == Char.ofNat 12

/-- Digit run of a Python integer literal after its first digit: single
underscores are allowed between digits, anything else fails. -/
def pyDigitsAux : List Char → Nat → Option Nat
  | [], acc => some acc
  | '_' :: c :: rest, acc =>
      if c.isDigit then pyDigitsAux rest (acc * 10 + (c.toNat - 48)) else none
  | c :: rest, acc =>
      if c.isDigit then pyDigitsAux rest (acc * 10 + (c.toNat - 48)) else none

/-- Unsigned part of Python `int(str)`: at least one digit, then
`pyDigitsAux`. -/
def pyNat : List Char → Option Nat
  | [] => none
  | c :: rest => if c.isDigit then pyDigitsAux rest (c.toNat - 48) else none

/-- Python `int(str)` for decimal strings: optional surrounding whitespace,
optional sign, then digits (underscores between digits allowed).  `none`
models the `ValueError` Python raises on any other input. -/
def pyInt (s : PyStr) : Option Int :=
  let cs := ((s.dropWhile pyWsChar).reverse.dropWhile pyWsChar).reverse
  match cs with
  | '+' :: rest => (pyNat rest).map (fun n => (n : Int))
  | '-' :: rest => (pyNat rest).map (fun n => -(n : Int))
  | rest => (pyNat rest).map (fun n => (n : Int))

/-- Python `str(n)` for an int. -/
def pyIntRepr (n : Int) : PyStr := (toString n).toList

/-- Value of a plain digit run (used by the float parser); `some 0` on the
empty list, the caller checks emptiness. -/
def digitsOnly (cs : List Char) : Option Nat :=
  cs.foldl
    (fun acc c =>
      match acc with
      | none => none
      | some a => if c.isDigit then some (a * 10 + (c.toNat - 48)) else none)
    (some 0)

/-- Python `float(str)` restricted to the plain decimal forms the cli feeds
it (optional sign, digits, optional fractional part); exponents, `inf` and
`nan` are not modelled.  `none` models `ValueError`. -/
def pyFloat (s : PyStr) : Option ℚ :=
  let cs := ((s.dropWhile pyWsChar).reverse.dropWhile pyWsChar).reverse
  let sb : ℚ × List Char :=
    match cs with
    | '+' :: rest => (1, rest)
    | '-' :: rest => (-1, rest)
    | rest => (1, rest)
  let sign := sb.1
  let body := sb.2
  let ip := body.takeWhile Char.isDigit
  match body.drop ip.length with
  | [] =>
      if ip == [] then none
      else (digitsOnly ip).map (fun n => sign * (n : ℚ))
  | '.' :: fp =>
      if fp.all Char.isDigit && !(ip == [] && fp == []) then
        match digitsOnly ip, digitsOnly fp with
        | some a, some b =>
            some (sign * ((a : ℚ) + (b : ℚ) / ((10 : ℚ) ^ fp.length)))
        | _, _ => none
      else none
  | _ => none

/-- A confirmed or pending contact record, the fields of the device dict the
session engine reads: `public_key` (identity), `adv_name` (display name),
`type` (1 chat, 2 repeater, 3 room server, 4 sensor) and the optional
`"timeout"` key (`response_timeout_override`, absent unless set). -/
structure ContactRec where
  public_key : PyStr
  adv_name : PyStr
  ctype : Nat
  timeout : Option ℚ
deriving DecidableEq

/-- A resolved recipient as interactive_loop stores it: either a contact
dict from the registry, or a channel pseudo-dict
`{"adv_name": …, "type": 0, "chan_nb": n}`.  The root/self target is
`Option.none` at the use sites (Python `None`). -/
inductive Target where
  | contact (c : ContactRec)
  | channel (adv_name : PyStr) (chan_nb : Int)
deriving DecidableEq

/-- Python `target["type"]`: 0 for the channel pseudo-dicts. -/
def Target.pyType : Target → Nat
  | .contact c => c.ctype
  | .channel _ _ => 0

/-- Python `target["adv_name"]`. -/
def Target.advName : Target → PyStr
  | .contact c => c.adv_name
  | .channel a _ => a

/-- Python `target["timeout"]` when the key is present: channel pseudo-dicts
never carry it. -/
def Target.timeoutField : Target → Option ℚ
  | .contact c => c.timeout
  | .channel _ _ => none

/-- Modelled from the spec (§4.4, `find_by_name`): `mc.get_contact_by_name`
of the external meshcore package — case-sensitive exact `display_name`
lookup over the insertion-ordered contact dict, first match wins. -/
def get_contact_by_name (reg : List ContactRec) (name : PyStr) :
    Option ContactRec :=
  reg.find? (fun c => c.adv_name == name)

/-- Modelled from the spec (§4.4, `find_by_identity_prefix`):
`mc.get_contact_by_key_prefix` of the external meshcore package — first
contact whose full identity starts with the given prefix. -/
def get_contact_by_key_pfx (reg : List ContactRec) (pfx : PyStr) :
    Option ContactRec :=
  reg.find? (fun c => pfx.isPrefixOf c.public_key)

/-- Effective timeout of `msg_ack` (meshcore_cli.py line 793):
`suggested_timeout / 1000 * 1.2` unless the contact dict carries a non-zero
`"timeout"` override.  `suggested` is the device-suggested milliseconds;
the float literal 1.2 is taken exactly as 6/5. -/
def msg_ack_timeout (ct : Option ℚ) (suggested : ℚ) : ℚ :=
  match ct with
  | none => suggested / 1000 * (6 / 5)
  | some t => if t = 0 then suggested / 1000 * (6 / 5) else t

/-- Effective timeout of the login wait (line 1399):
`suggested_timeout / 800` unless a non-zero contact override is set. -/
def login_timeout (ct : Option ℚ) (suggested : ℚ) : ℚ :=
  match ct with
  | none => suggested / 800
  | some t => if t = 0 then suggested / 800 else t

/-- Effective timeout of the req_status wait (line 1443), same shape as the
login wait. -/
def status_timeout (ct : Option ℚ) (suggested : ℚ) : ℚ :=
  match ct with
  | none => suggested / 800
  | some t => if t = 0 then suggested / 800 else t

/-- Effective timeout of the req_telemetry wait (line 1463), same shape as
the login wait. -/
def telemetry_timeout (ct : Option ℚ) (suggested : ℚ) : ℚ :=
  match ct with
  | none => suggested / 800
  | some t => if t = 0 then suggested / 800 else t

/-- Timeout of the `wait_ack` command's wait (line 1881): the fixed 5-second
fallback — that wait is started with no triggering send, so no suggested
timeout exists. -/
def wait_ack_timeout : ℚ := 5

/-- Result of an external device command (`mc.commands.send_msg`,
`send_chan_msg`, …): either an error event, or an ok payload carrying the
`expected_ack` token (as its hex string) and the device-suggested timeout
in milliseconds. -/
inductive SendOutcome where
  | error
  | ok (expected_ack : String) (suggested_timeout : ℚ)
deriving DecidableEq

/-- The external device/event collaborator, as the session code observes
it: what a send returns, and whether an ACK event whose `code` equals the
given token arrives within the given timeout (`mc.wait_for_event` returns
`None` on timeout). -/
structure DeviceEnv where
  send_msg : Target → PyStr → SendOutcome
  send_chan_msg : Int → PyStr → SendOutcome
  ack_within : String → ℚ → Bool

/-- Instrumented result of `msg_ack`: the boolean the function returns,
whether `wait_for_event` was invoked on the way, and with which timeout. -/
structure WaitTrace where
  result : Bool
  waited : Bool
  timeout_used : Option ℚ
deriving DecidableEq

/-- `msg_ack(mc, contact, msg)` (lines 786–798): send the message; on a
device error report and return False without waiting; otherwise wait for
the ACK event carrying the expected token with the effective timeout and
return whether it arrived. -/
def msg_ack (env : DeviceEnv) (contact : Target) (msg : PyStr) : WaitTrace :=
  match env.send_msg contact msg with
  | .error => ⟨false, false, none⟩
  | .ok exp suggested =>
      let t := msg_ack_timeout contact.timeoutField suggested
      ⟨env.ack_within exp t, true, some t⟩

/-- Instrumented result of the `chan` command: whether a device error was
reported, and whether any ack wait was started. -/
structure ChanTrace where
  errorReported : Bool
  waited : Bool
deriving DecidableEq

/-- next_cmd's `"chan"|"ch"` case (lines 1345–1352): `send_chan_msg`, report
a device error, print the payload in json mode; the body contains no
`wait_for_event` call. -/
def chan_cmd (env : DeviceEnv) (nb : Int) (text : PyStr) : ChanTrace :=
  match env.send_chan_msg nb text with
  | .error => ⟨true, false⟩
  | .ok _ _ => ⟨false, false⟩

/-- Outcome of resolving a `to <dest>` token (interactive_loop lines
614–633): a new target (`ok`), the "Contact '…' not found" diagnostic
(which leaves `nc = contact`), or an uncaught `ValueError` escaping from
`int(dest[2:])`. -/
inductive ResolveOut where
  | ok (nc : Option Target)
  | notFound
  | raise
deriving DecidableEq

/-- Target resolution of `to <dest>` (lines 618–633), exactly in source
order: registry display-name lookup first; only when it fails are the
special forms `public`, `ch<N>`, `..`, `~` / `/` / own name, `!` tried;
any other token prints the not-found diagnostic. -/
def resolveDest (reg : List ContactRec) (selfName : PyStr)
    (_contact prev last_node : Option Target) (dest : PyStr) : ResolveOut :=
  match get_contact_by_name reg dest with
  | some c => .ok (some (.contact c))
  | none =>
      if dest == "public".toList then
        .ok (some (.channel ("public".toList) 0))
      else if pyStartsWith dest ("ch".toList) then
        match pyInt (dest.drop 2) with
        | some n => .ok (some (.channel (("chan".toList) ++ pyIntRepr n) n))
        | none => .raise
      else if dest == "..".toList then .ok prev
      else if dest == "~".toList || dest == "/".toList || dest == selfName then
        .ok none
      else if dest == "!".toList then .ok last_node
      else .notFound

/-- Interactive-loop state across iterations: the current target, the
single previous-target undo slot, and the last-delivery-acknowledged flag.
Python initialises `prev_contact` to `None`, the same value as the root
target — the conflation is the source's. -/
structure LoopState where
  contact : Option Target
  prev_contact : Option Target
  last_ack : Bool
deriving DecidableEq

/-- Externally visible operation a dispatched line performs.  Branches no
claim touches keep their arguments coarse (`otherCmd`, `setpermCmd`) but
their guards exact, so fall-through order is faithful. -/
inductive Effect where
  | nop
  | passthrough (raw : PyStr)
  | printSelfName
  | printContactName (name : PyStr)
  | printNotFound (dest : PyStr)
  | printNoMsgYet
  | printTimeoutVal (v : ℚ)
  | printList
  | setTimeout (v : ℚ)
  | chanSend (nb : Int) (text : PyStr)
  | sendWithAck (tgt : Target) (text : PyStr)
  | cmdSend (name : PyStr) (text : PyStr)
  | otherCmd (args : List PyStr)
  | setpermCmd (raw : PyStr)
deriving DecidableEq

/-- One loop iteration's outcome: continue with a new state and an effect,
leave the loop (`quit`), or die on an uncaught exception (`raise`). -/
inductive StepOut where
  | next (st : LoopState) (eff : Effect)
  | quit
  | raise
deriving DecidableEq

/-- True when the destination token starts with a double or single quote
(source line 616); `Char.ofNat 39` is the single quote. -/
def isQuotedDest (d : PyStr) : Bool :=
  pyStartsWith d ("\"".toList) || pyStartsWith d ([Char.ofNat 39])

/-- Modelled from the Python stdlib contract of `shlex.split` on a leading
quoted token (the only shape line 617 feeds it): the text up to the
matching closing quote; an unmatched quote raises `ValueError` (`none`).
Escape sequences and adjacent-token joining are not modelled — no claim
exercises quoted destinations. -/
def shlexFirst (s : PyStr) : Option PyStr :=
  match s with
  | [] => none
  | q :: rest =>
      let tok := rest.takeWhile (fun c => !(c == q))
      if tok.length == rest.length then none else some tok

/-- The `to <dest>` navigation step (lines 614–637): unquote, resolve, and
update the target — pushing the old target into the undo slot and resetting
`last_ack` only when the resolved target differs from the current one. -/
def toStep (reg : List ContactRec) (selfName : PyStr)
    (last_node : Option Target) (st : LoopState) (dest0 : PyStr) : StepOut :=
  match (if isQuotedDest dest0 then shlexFirst dest0 else some dest0) with
  | none => .raise
  | some dest =>
      match resolveDest reg selfName st.contact st.prev_contact last_node dest with
      | .raise => .raise
      | .notFound => .next st (.printNotFound dest)
      | .ok nc =>
          if nc ≠ st.contact then .next ⟨nc, st.contact, true⟩ .nop
          else .next st .nop

/-- Python `line.split(" ", 1)`: the first space-separated word and the
rest (pair with `[]` when no space occurs; every use site guarantees a
space via its prefix guard). -/
def splitOnce : PyStr → PyStr × PyStr
  | [] => ([], [])
  | c :: rest =>
      if c == ' ' then ([], rest)
      else
        let r := splitOnce rest
        (c :: r.1, r.2)

/-- `contact["timeout"] = v` on the current target (line 687); only reached
under the `type > 0` guard, so the channel case is vacuous. -/
def Target.withTimeout : Target → ℚ → Target
  | .contact cr, v => .contact ⟨cr.public_key, cr.adv_name, cr.ctype, some v⟩
  | .channel a n, _ => .channel a n

/-- Dispatch of a line at a non-root target that passed the generic guards
(interactive_loop lines 672–776), in exact source order. -/
def dispatchTarget (env : DeviceEnv) (st : LoopState) (c : Target)
    (line : PyStr) : StepOut :=
  let t := c.pyType
  if t > 0 && (line == "sc".toList || line == "share_contact".toList ||
      line == "ec".toList || line == "export_contact".toList ||
      line == "uc".toList || line == "upload_contact".toList ||
      line == "rp".toList || line == "reset_path".toList ||
      line == "contact_info".toList || line == "ci".toList ||
      line == "req_status".toList || line == "rs".toList ||
      line == "req_telemetry".toList || line == "rt".toList ||
      line == "req_acl".toList ||
      line == "path".toList ||
      line == "logout".toList) then
    .next st (.otherCmd [line, c.advName])
  else if t > 0 && pyStartsWith line ("set timeout ".toList) then
    match (line.splitOn ' ').get? 2 with
    | none => .raise
    | some w =>
        match pyFloat w with
        | none => .raise
        | some v =>
            .next ⟨some (c.withTimeout v), st.prev_contact, st.last_ack⟩
              (.setTimeout v)
  else if t > 0 && line == "get timeout".toList then
    .next st (.printTimeoutVal (match c.timeoutField with
      | none => 0
      | some v => v))
  else if (t == 4 && (line == "get acl".toList ||
        pyStartsWith line ("get mma ".toList))) ||
      (t > 1 && (pyStartsWith line ("get telemetry".toList) ||
        pyStartsWith line ("get status".toList))) then
    let cmds := line.splitOn ' '
    match cmds.get? 1 with
    | none => .raise
    | some w1 =>
        let args := [("req_".toList) ++ w1, c.advName] ++ cmds.drop 2
        let args :=
          if pyStartsWith line ("get mma ".toList) && args.length < 4 then
            args ++ [("0".toList)]
          else args
        .next st (.otherCmd args)
  else if t == 4 && (pyStartsWith line ("setperm ".toList) ||
      pyStartsWith line ("set perm ".toList)) then
    .next st (.setpermCmd line)
  else if t > 0 && (pyStartsWith line ("cmd ".toList) ||
      pyStartsWith line ("cp ".toList) ||
      pyStartsWith line ("change_path ".toList) ||
      pyStartsWith line ("cf ".toList) ||
      pyStartsWith line ("change_flags ".toList) ||
      pyStartsWith line ("req_binary ".toList) ||
      pyStartsWith line ("login ".toList)) then
    let parts := splitOnce line
    .next st (.otherCmd [parts.1, c.advName, parts.2])
  else if t == 4 && (pyStartsWith line ("req_mma ".toList) ||
      pyStartsWith line ("rm ".toList)) then
    let cmds := line.splitOn ' '
    let cmds := if cmds.length < 3 then cmds ++ [("0".toList)] else cmds
    match cmds.get? 0, cmds.get? 1, cmds.get? 2 with
    | some a, some b, some d => .next st (.otherCmd [a, c.advName, b, d])
    | _, _, _ => .raise
  else if pyStartsWith line (":".toList) then
    .next st (.cmdSend c.advName (line.drop 1))
  else if line == "reset path".toList then
    .next st (.otherCmd [("reset_path".toList), c.advName])
  else if line == "list".toList then
    .next st .printList
  else if pyStartsWith line ("send".toList) ||
      pyStartsWith line ("\"".toList) then
    let line1 := if pyStartsWith line ("send".toList) then line.drop 5 else line
    let line2 := if pyStartsWith line1 ("\"".toList) then line1.drop 1 else line1
    let tr := msg_ack env c line2
    .next ⟨st.contact, st.prev_contact, tr.result⟩ (.sendWithAck c line2)
  else if t == 0 then
    match c with
    | .channel _ nb => .next st (.chanSend nb line)
    | .contact _ => .raise
  else if t == 1 then
    let tr := msg_ack env c line
    .next ⟨st.contact, st.prev_contact, tr.result⟩ (.sendWithAck c line)
  else if t == 2 || t == 3 || t == 4 then
    .next st (.cmdSend c.advName line)
  else .next st .nop

/-- One iteration of the interactive loop's line dispatch (lines 606–776),
in exact source order.  `last_node` is the module-level
`process_event_message.last_node` slot; `reg` the contact registry;
`selfName` the device's own name. -/
def interactStep (env : DeviceEnv) (reg : List ContactRec) (selfName : PyStr)
    (last_node : Option Target) (st : LoopState) (line : PyStr) : StepOut :=
  if line == [] then .next st .nop
  else if pyStartsWith line ("$".toList) then
    .next st (.passthrough (line.drop 1))
  else if pyStartsWith line ("to ".toList) then
    toStep reg selfName last_node st (line.drop 3)
  else if line == "to".toList then
    match st.contact with
    | none => .next st .printSelfName
    | some c => .next st (.printContactName c.advName)
  else if line == "quit".toList || line == "q".toList then .quit
  else if pyStartsWith line ("public ".toList) then
    .next st (.otherCmd [("public".toList), line.drop 7])
  else if pyStartsWith line ("!".toList) then
    match last_node with
    | none => .next st .printNoMsgYet
    | some ln =>
        if ln.pyType == 0 then
          match st.contact with
          | some (.channel _ nb) => .next st (.chanSend nb line)
          | _ => .raise
        else
          let tr := msg_ack env ln (line.drop 1)
          .next ⟨if tr.result then st.contact else some ln,
                 st.prev_contact, tr.result⟩
            (.sendWithAck ln (line.drop 1))
  else
    match st.contact with
    | none => .next st (.passthrough line)
    | some c =>
        if pyStartsWith line (".".toList) then .next st (.passthrough line)
        else dispatchTarget env st c line

/-- ANSI constants of meshcore_cli.py (lines 43–66), the ones the prompt
builder uses. -/
def ANSI_END : PyStr := "\x1B[0m".toList

def ANSI_INVERT : PyStr := "\x1B[7m".toList

def ANSI_NORMAL : PyStr := "\x1B[27m".toList

def ANSI_BGREEN : PyStr := "\x1B[1;32m".toList

def ANSI_BBLUE : PyStr := "\x1B[1;34m".toList

def ANSI_BRED : PyStr := "\x1B[1;31m".toList

def ANSI_BMAGENTA : PyStr := "\x1B[1;35m".toList

def ANSI_BCYAN : PyStr := "\x1B[1;36m".toList

def ANSI_BGRAY : PyStr := "\x1B[1;38;5;247m".toList

def ANSI_BYELLOW : PyStr := "\x1B[1;33m".toList

/-- Character class `[0-?]` of the escape_ansi regex. -/
def isCsiParamByte (c : Char) : Bool := 48 ≤ c.toNat && c.toNat ≤ 63

/-- Character class 0x20–0x2F (space to slash) of the escape_ansi regex. -/
def isCsiInterByte (c : Char) : Bool := 32 ≤ c.toNat && c.toNat ≤ 47

/-- Character class `[@-~]` of the escape_ansi regex. -/
def isCsiFinalByte (c : Char) : Bool := 64 ≤ c.toNat && c.toNat ≤ 126

/-- Character class `[@-_]` (second char after ESC) of the regex. -/
def isEscSecond (c : Char) : Bool := 64 ≤ c.toNat && c.toNat ≤ 95

/-- Character class `[\x80-\x9F]` of the regex. -/
def isC1Char (c : Char) : Bool := 128 ≤ c.toNat && c.toNat ≤ 159

/-- Tail of one escape-sequence match after its start: 0x30–0x3F bytes, then 0x20–0x2F bytes, then one 0x40–0x7E byte,
returning the unconsumed rest.  The three classes are disjoint, so the
regex's greedy match needs no backtracking. -/
def escTail (cs : List Char) : Option (List Char) :=
  match (cs.dropWhile isCsiParamByte).dropWhile isCsiInterByte with
  | c :: rest => if isCsiFinalByte c then some rest else none
  | [] => none

theorem escTail_length_lt (cs r : List Char) (h : escTail cs = some r) :
    r.length < cs.length := by
  unfold escTail at h
  rcases heq : (cs.dropWhile isCsiParamByte).dropWhile isCsiInterByte with
    _ | ⟨c, rest⟩
  · rw [heq] at h; exact absurd h (by simp)
  · rw [heq] at h
    by_cases hf : isCsiFinalByte c = true
    · simp only [hf, if_true, Option.some.injEq] at h
      subst h
      have h1 : (c :: rest).length ≤
          (cs.dropWhile isCsiParamByte).length := by
        rw [← heq]
        exact (List.dropWhile_suffix isCsiInterByte).length_le
      have h2 : (cs.dropWhile isCsiParamByte).length ≤ cs.length :=
        (List.dropWhile_suffix isCsiParamByte).length_le
      simp only [List.length_cons] at h1
      omega
    · simp [hf] at h

/-- `escape_ansi` (lines 68–70): delete every match of
the pattern ESC + second byte 0x40–0x5F (or a lone 0x80–0x9F byte), then 0x30–0x3F bytes, then 0x20–0x2F bytes, then one final 0x40–0x7E byte, scanning left to right. -/
def escape_ansi : List Char → List Char
  | [] => []
  | c1 :: rest =>
      if c1 = '\x1B' then
        match rest with
        | [] => [c1]
        | c2 :: rest2 =>
            if isEscSecond c2 then
              match h : escTail rest2 with
              | some r => escape_ansi r
              | none => c1 :: escape_ansi (c2 :: rest2)
            else c1 :: escape_ansi (c2 :: rest2)
      else if isC1Char c1 then
        match h : escTail rest with
        | some r => escape_ansi r
        | none => c1 :: escape_ansi rest
      else c1 :: escape_ansi rest
termination_by cs => cs.length
decreasing_by
  · simpa using Nat.lt_succ_of_lt (Nat.lt_succ_of_lt (escTail_length_lt _ _ h))
  · simp
  · simp
  · exact Nat.lt_succ_of_lt (escTail_length_lt _ _ h)
  · simp
  · simp

/-- Per-target portion of the prompt (lines 561–588): the bright-red
"unacknowledged" marker (plus `"!"` in classic mode) when the last delivery
was not acknowledged, else the colour of the target's type; then the
separator glyphs and the target's display name. -/
def promptContactPart (classic print_name : Bool) (tgt : Target)
    (last_ack : Bool) : PyStr :=
  let s1 :=
    if !last_ack then ANSI_BRED ++ (if classic then "!".toList else [])
    else if tgt.pyType == 4 then ANSI_BYELLOW
    else if tgt.pyType == 3 then ANSI_BCYAN
    else if tgt.pyType == 2 then ANSI_BMAGENTA
    else if tgt.pyType == 0 then ANSI_BGREEN
    else ANSI_BBLUE
  let s2 := s1 ++ (if !classic then ANSI_INVERT else [])
  let s3 := s2 ++ (if print_name && !classic then "🭬".toList else [])
  let s4 := s3 ++ tgt.advName
  let s5 := s4 ++ (if classic then ANSI_NORMAL ++ " > ".toList
                   else ANSI_NORMAL ++ "🭬".toList)
  s5 ++ ANSI_END

/-- Prompt construction for one iteration (lines 541–591):
`classic = interactive_loop.classic or not color`; the self-name part when
`print_name` or at root; the per-target part; ANSI codes stripped when
colour is off. -/
def buildPrompt (color classic0 print_name : Bool) (selfName : PyStr)
    (contact : Option Target) (last_ack : Bool) : PyStr :=
  let classic := classic0 || !color
  let p0 := if classic then [] else ANSI_INVERT
  let p1 := p0 ++
    (if print_name || contact == none then
      ANSI_BGRAY ++ selfName ++ (if classic then " > ".toList else "🭨".toList)
    else [])
  match contact with
  | none => p1
  | some tgt =>
      let p2 := p1 ++ promptContactPart classic print_name tgt last_ack
      if !color then escape_ansi p2 else p2

/-- An inbound message event's fields that drive the
`process_event_message.last_node` update: the payload `type`
(`"PRIV"`/`"CHAN"`), the sender's `pubkey_prefix`, and `channel_idx`. -/
structure MsgEvent where
  mtype : PyStr
  pubkey_pfx : PyStr
  channel_idx : Int
deriving DecidableEq

/-- The `last_node` slot after `process_event_message` handles one event
(lines 88–178): `none` events (including NO_MORE_MSGS / ERROR returns) and
json mode leave it alone; a PRIV message sets it to the resolved sender
only when `get_contact_by_key_prefix` finds one; a CHAN message sets it to
the channel pseudo-dict (`"public"` for index 0, `"ch<idx>"` otherwise). -/
def process_event_last_node (reg : List ContactRec) (json_output : Bool)
    (ev : Option MsgEvent) (last_node : Option Target) : Option Target :=
  match ev with
  | none => last_node
  | some data =>
      if json_output then last_node
      else if data.mtype == "PRIV".toList then
        match get_contact_by_key_pfx reg data.pubkey_pfx with
        | none => last_node
        | some ct => some (.contact ct)
      else if data.mtype == "CHAN".toList then
        if data.channel_idx == 0 then some (.channel ("public".toList) 0)
        else some (.channel (("ch".toList) ++ pyIntRepr data.channel_idx)
          data.channel_idx)
      else last_node

/-- Confirmed and pending contact registries as the meshcore object holds
them (insertion-ordered dicts keyed by public key, modelled as lists). -/
structure RegistryState where
  contacts : List ContactRec
  pending : List ContactRec
deriving DecidableEq

/-- Python dict assignment `contacts[key] = c`: replace in place when the
key is present, append otherwise. -/
def dictInsert (contacts : List ContactRec) (c : ContactRec) :
    List ContactRec :=
  if contacts.any (fun x => x.public_key == c.public_key) then
    contacts.map (fun x => if x.public_key == c.public_key then c else x)
  else contacts ++ [c]

/-- next_cmd's `add_pending` case (lines 1576–1592).
`mc.pop_pending_contact` is modelled from the spec (§4.4 promotion is a
move): remove and return the pending entry with the given key.  On a
device `add_contact` error the popped entry is reported lost, not restored;
on success it is stored into the confirmed dict under its public key.
Returns the new registries and whether promotion succeeded. -/
def add_pending_cmd (add_contact_ok : Bool) (rs : RegistryState)
    (key : PyStr) : RegistryState × Bool :=
  match rs.pending.find? (fun p => p.public_key == key) with
  | none => (rs, false)
  | some ct =>
      let pend2 := rs.pending.eraseP (fun p => p.public_key == key)
      if add_contact_ok then (⟨dictInsert rs.contacts ct, pend2⟩, true)
      else (⟨rs.contacts, pend2⟩, false)

/-- A device environment whose sends fail (used only to instantiate
universally quantified theorems at closed inputs). -/
def env0 : DeviceEnv := ⟨fun _ _ => .error, fun _ _ => .error, fun _ _ => false⟩

/-- A device environment whose sends are accepted with ack token "00ff" and
suggested timeout 5000 ms, and where no matching ack ever arrives. -/
def envOk : DeviceEnv :=
  ⟨fun _ _ => .ok "00ff" 5000, fun _ _ => .ok "00ff" 5000, fun _ _ => false⟩

/-- A chat contact used by closed instances. -/
def bobC : ContactRec := ⟨"abcd".toList, "Bob".toList, 1, none⟩

/-- A contact whose display name is the literal token "public", to probe
lookup precedence. -/
def pubImposter : ContactRec := ⟨"eeff".toList, "public".toList, 1, none⟩

/-- A line is a plain message: it fails every dispatch guard of
interactive_loop lines 606–764 that precedes the message-send branches
(each conjunct negates one source guard, in source order), so control falls
through to the per-target-type send at lines 767–776. -/
def isPlainMsgLine (line : PyStr) : Bool :=
  !(line == []) &&
  !(pyStartsWith line ("$".toList)) &&
  !(pyStartsWith line ("to ".toList)) &&
  !(line == "to".toList) &&
  !(line == "quit".toList) && !(line == "q".toList) &&
  !(pyStartsWith line ("public ".toList)) &&
  !(pyStartsWith line ("!".toList)) &&
  !(pyStartsWith line (".".toList)) &&
  !(line == "sc".toList) && !(line == "share_contact".toList) &&
  !(line == "ec".toList) && !(line == "export_contact".toList) &&
  !(line == "uc".toList) && !(line == "upload_contact".toList) &&
  !(line == "rp".toList) && !(line == "reset_path".toList) &&
  !(line == "contact_info".toList) && !(line == "ci".toList) &&
  !(line == "req_status".toList) && !(line == "rs".toList) &&
  !(line == "req_telemetry".toList) && !(line == "rt".toList) &&
  !(line == "req_acl".toList) && !(line == "path".toList) &&
  !(line == "logout".toList) &&
  !(pyStartsWith line ("set timeout ".toList)) &&
  !(line == "get timeout".toList) &&
  !(line == "get acl".toList) &&
  !(pyStartsWith line ("get mma ".toList)) &&
  !(pyStartsWith line ("get telemetry".toList)) &&
  !(pyStartsWith line ("get status".toList)) &&
  !(pyStartsWith line ("setperm ".toList)) &&
  !(pyStartsWith line ("set perm ".toList)) &&
  !(pyStartsWith line ("cmd ".toList)) &&
  !(pyStartsWith line ("cp ".toList)) &&
  !(pyStartsWith line ("change_path ".toList)) &&
  !(pyStartsWith line ("cf ".toList)) &&
  !(pyStartsWith line ("change_flags ".toList)) &&
  !(pyStartsWith line ("req_binary ".toList)) &&
  !(pyStartsWith line ("login ".toList)) &&
  !(pyStartsWith line ("req_mma ".toList)) &&
  !(pyStartsWith line ("rm ".toList)) &&
  !(pyStartsWith line (":".toList)) &&
  !(line == "reset path".toList) &&
  !(line == "list".toList) &&
  !(pyStartsWith line ("send".toList)) &&
  !(pyStartsWith line ("\"".toList))

theorem step_plain_chat (env : DeviceEnv) (reg : List ContactRec)
    (selfName : PyStr) (ln : Option Target) (st : LoopState) (line : PyStr)
    (c : Target) (hplain : isPlainMsgLine line = true)
    (hst : st.contact = some c) (htype : c.pyType = 1) :
    interactStep env reg selfName ln st line =
      .next ⟨st.contact, st.prev_contact, (msg_ack env c line).result⟩
        (.sendWithAck c line) := by
  simp only [isPlainMsgLine, Bool.and_eq_true, Bool.not_eq_true'] at hplain
  obtain ⟨⟨⟨⟨⟨⟨⟨⟨⟨⟨⟨⟨⟨⟨⟨⟨⟨⟨⟨⟨⟨⟨⟨⟨⟨⟨⟨⟨⟨⟨⟨⟨⟨⟨⟨⟨⟨⟨⟨⟨⟨⟨⟨⟨⟨⟨⟨h1, h2⟩, h3⟩, h4⟩,
    h5⟩, h6⟩, h7⟩, h8⟩, h9⟩, h10⟩, h11⟩, h12⟩, h13⟩, h14⟩, h15⟩, h16⟩, h17⟩,
    h18⟩, h19⟩, h20⟩, h21⟩, h22⟩, h23⟩, h24⟩, h25⟩, h26⟩, h27⟩, h28⟩, h29⟩,
    h30⟩, h31⟩, h32⟩, h33⟩, h34⟩, h35⟩, h36⟩, h37⟩, h38⟩, h39⟩, h40⟩, h41⟩,
    h42⟩, h43⟩, h44⟩, h45⟩, h46⟩, h47⟩, h48⟩ := hplain
  simp only [interactStep, h1, h2, h3, h4, h5, h6, h7, h8, hst, h9,
    Bool.false_eq_true, if_false, Bool.or_self]
  simp only [dispatchTarget, htype, h10, h11, h12, h13, h14, h15, h16, h17,
    h18, h19, h20, h21, h22, h23, h24, h25, h26, h27, h28, h29, h30, h31,
    h32, h33, h34, h35, h36, h37, h38, h39, h40, h41, h42, h43, h44, h45,
    h46, h47, h48, Bool.false_eq_true, if_false, Bool.or_self,
    Bool.and_false, Bool.false_and, Bool.or_false, Bool.false_or,
    Bool.and_self]
  norm_num
  exact hst

theorem step_plain_channel (env : DeviceEnv) (reg : List ContactRec)
    (selfName : PyStr) (ln : Option Target) (st : LoopState) (line : PyStr)
    (nm : PyStr) (nb : Int) (hplain : isPlainMsgLine line = true)
    (hst : st.contact = some (.channel nm nb)) :
    interactStep env reg selfName ln st line =
      .next st (.chanSend nb line) := by
  simp only [isPlainMsgLine, Bool.and_eq_true, Bool.not_eq_true'] at hplain
  obtain ⟨⟨⟨⟨⟨⟨⟨⟨⟨⟨⟨⟨⟨⟨⟨⟨⟨⟨⟨⟨⟨⟨⟨⟨⟨⟨⟨⟨⟨⟨⟨⟨⟨⟨⟨⟨⟨⟨⟨⟨⟨⟨⟨⟨⟨⟨⟨h1, h2⟩, h3⟩, h4⟩,
    h5⟩, h6⟩, h7⟩, h8⟩, h9⟩, h10⟩, h11⟩, h12⟩, h13⟩, h14⟩, h15⟩, h16⟩, h17⟩,
    h18⟩, h19⟩, h20⟩, h21⟩, h22⟩, h23⟩, h24⟩, h25⟩, h26⟩, h27⟩, h28⟩, h29⟩,
    h30⟩, h31⟩, h32⟩, h33⟩, h34⟩, h35⟩, h36⟩, h37⟩, h38⟩, h39⟩, h40⟩, h41⟩,
    h42⟩, h43⟩, h44⟩, h45⟩, h46⟩, h47⟩, h48⟩ := hplain
  simp only [interactStep, h1, h2, h3, h4, h5, h6, h7, h8, hst, h9,
    Bool.false_eq_true, if_false, Bool.or_self]
  simp only [dispatchTarget, Target.pyType, h10, h11, h12, h13, h14, h15,
    h16, h17, h18, h19, h20, h21, h22, h23, h24, h25, h26, h27, h28, h29,
    h30, h31, h32, h33, h34, h35, h36, h37, h38, h39, h40, h41, h42, h43,
    h44, h45, h46, h47, h48, Bool.false_eq_true, if_false, Bool.or_self,
    Bool.and_false, Bool.false_and, Bool.or_false, Bool.false_or]
  norm_num

/-- C1: for every wait on an asynchronous reply triggered by a contact
operation (message acknowledgment via msg_ack, login, status and telemetry
requests), the effective timeout is the contact's timeout override when
present and non-zero, otherwise a value derived from the suggested timeout
carried by the device's reply to the triggering request; and the wait_ack
command's ack wait, which has no suggestion available, uses the fixed
5-second fallback. -/
theorem effective_timeout_policy (ct : Option ℚ) (sugg : ℚ) :
    (∀ t : ℚ, ct = some t → t ≠ 0 →
      msg_ack_timeout ct sugg = t ∧ login_timeout ct sugg = t ∧
      status_timeout ct sugg = t ∧ telemetry_timeout ct sugg = t) ∧
    (ct = none ∨ ct = some 0 →
      msg_ack_timeout ct sugg = sugg / 1000 * (6 / 5) ∧
      login_timeout ct sugg = sugg / 800 ∧
      status_timeout ct sugg = sugg / 800 ∧
      telemetry_timeout ct sugg = sugg / 800) ∧
    wait_ack_timeout = 5 := by
  refine ⟨?_, ?_, rfl⟩
  · rintro t rfl ht
    simp [msg_ack_timeout, login_timeout, status_timeout, telemetry_timeout,
      ht]
  · rintro (rfl | rfl) <;>
      simp [msg_ack_timeout, login_timeout, status_timeout,
        telemetry_timeout]

/-- C1 witness: a non-zero override of 3 s wins over a 5000 ms suggestion;
with no override the login wait uses 5000/800 s; wait_ack uses 5 s. -/
theorem effective_timeout_policy_witness :
    msg_ack_timeout (some 3) 5000 = 3 ∧ login_timeout none 5000 = 25 / 4 ∧
    wait_ack_timeout = 5 := by
  refine ⟨((effective_timeout_policy (some 3) 5000).1 3 rfl
    (by norm_num)).1, ?_, (effective_timeout_policy none 0).2.2⟩
  have h := ((effective_timeout_policy none 5000).2.1 (Or.inl rfl)).2.1
  rw [h]; norm_num

/-- C2 counterexample: with a contact display-named "public" in the
registry, resolving the token "public" yields that contact, not the
Channel-0 target — the registry display-name lookup runs before the
channel forms, refuting the claim's "for every Registry state". -/
theorem public_token_shadowed_cex :
    resolveDest [pubImposter] ("me".toList) none none none
      ("public".toList) = .ok (some (.contact pubImposter)) ∧
    ¬ resolveDest [pubImposter] ("me".toList) none none none
      ("public".toList) = .ok (some (.channel ("public".toList) 0)) := by
  exact ⟨by decide, by decide⟩

/-- C2 amended: provided no registry contact's display name equals the
token (display-name lookup takes precedence), "public" resolves to the
Channel target with index 0, and "ch<N>" with N parsed as a non-negative
integer resolves to the Channel target with index N, for every current
target, previous target and LastSender value. -/
theorem channel_token_resolution (reg : List ContactRec) (selfName : PyStr)
    (ct prev ln : Option Target) :
    (get_contact_by_name reg ("public".toList) = none →
      resolveDest reg selfName ct prev ln ("public".toList)
        = .ok (some (.channel ("public".toList) 0))) ∧
    (∀ rest : PyStr, ∀ n : Int,
      get_contact_by_name reg ('c' :: 'h' :: rest) = none →
      pyInt rest = some n → 0 ≤ n →
      resolveDest reg selfName ct prev ln ('c' :: 'h' :: rest)
        = .ok (some (.channel (("chan".toList) ++ pyIntRepr n) n))) := by
  constructor
  · intro h
    have h' : get_contact_by_name reg ['p', 'u', 'b', 'l', 'i', 'c'] = none :=
      h
    simp [resolveDest, h']
  · intro rest n h hp _
    have h' : get_contact_by_name reg ('c' :: 'h' :: rest) = none := h
    have hpub :
        (('c' :: 'h' :: rest : PyStr) == ['p', 'u', 'b', 'l', 'i', 'c'])
          = false := by simp
    have hch : pyStartsWith ('c' :: 'h' :: rest) ['c', 'h'] = true := by
      simp [pyStartsWith, List.isPrefixOf]
    simp [resolveDest, h', hpub, hch, hp]

/-- C2 amended witness: with an empty registry, "ch3" resolves to the
Channel target with index 3 and "public" to Channel 0. -/
theorem channel_token_resolution_witness :
    resolveDest [] ("me".toList) none none none ("ch3".toList)
      = .ok (some (.channel ("chan3".toList) 3)) ∧
    resolveDest [] ("me".toList) none none none ("public".toList)
      = .ok (some (.channel ("public".toList) 0)) := by
  constructor
  · exact (channel_token_resolution [] ("me".toList) none none none).2
      ("3".toList) 3 (by decide) (by decide) (by decide)
  · exact (channel_token_resolution [] ("me".toList) none none none).1
      (by decide)

/-- C3: after navigations T0 to T1 to T2 that each actually changed the
target, resolving ".." via the `to` step yields T1 (single-level undo, not
T0); and a navigation whose resolved target equals the current target —
including the not-found case, which leaves the target unchanged — does not
modify the previous-target undo slot. -/
theorem dotdot_single_level_undo (reg : List ContactRec) (selfName : PyStr)
    (ln : Option Target) (T0 T1 T2 p : Option Target) (a : Bool)
    (d1 d2 : PyStr)
    (hdot : get_contact_by_name reg ("..".toList) = none)
    (hq1 : isQuotedDest d1 = false) (hq2 : isQuotedDest d2 = false)
    (h1 : resolveDest reg selfName T0 p ln d1 = .ok T1) (hne1 : T1 ≠ T0)
    (h2 : resolveDest reg selfName T1 T0 ln d2 = .ok T2) (hne2 : T2 ≠ T1) :
    toStep reg selfName ln ⟨T0, p, a⟩ d1 = .next ⟨T1, T0, true⟩ .nop ∧
    toStep reg selfName ln ⟨T1, T0, true⟩ d2 = .next ⟨T2, T1, true⟩ .nop ∧
    toStep reg selfName ln ⟨T2, T1, true⟩ ("..".toList)
      = .next ⟨T1, T2, true⟩ .nop ∧
    (∀ st : LoopState, ∀ d : PyStr, isQuotedDest d = false →
      resolveDest reg selfName st.contact st.prev_contact ln d
        = .ok st.contact →
      toStep reg selfName ln st d = .next st .nop) ∧
    (∀ st : LoopState, ∀ d : PyStr, isQuotedDest d = false →
      resolveDest reg selfName st.contact st.prev_contact ln d
        = .notFound →
      toStep reg selfName ln st d = .next st (.printNotFound d)) := by
  refine ⟨?_, ?_, ?_, ?_, ?_⟩
  · simp [toStep, hq1, h1, hne1]
  · simp [toStep, hq2, h2, hne2]
  · have hdot' : get_contact_by_name reg ['.', '.'] = none := hdot
    have hres : resolveDest reg selfName T2 T1 ln ['.', '.']
        = .ok T1 := by
      simp [resolveDest, hdot', pyStartsWith]
    simp [toStep, isQuotedDest, pyStartsWith, hres, Ne.symm hne2]
  · intro st d hq hres
    simp [toStep, hq, hres]
  · intro st d hq hres
    simp [toStep, hq, hres]

/-- C3 witness: root to public to ch1, then ".." returns to public (with
ch1 pushed into the undo slot), at concrete inputs. -/
theorem dotdot_single_level_undo_witness :
    toStep [] ("me".toList) none
      ⟨some (.channel ("chan1".toList) 1),
       some (.channel ("public".toList) 0), true⟩ ("..".toList)
      = .next ⟨some (.channel ("public".toList) 0),
               some (.channel ("chan1".toList) 1), true⟩ .nop := by
  exact (dotdot_single_level_undo [] ("me".toList) none none
    (some (.channel ("public".toList) 0))
    (some (.channel ("chan1".toList) 1)) none true
    ("public".toList) ("ch1".toList) (by decide) (by decide) (by decide)
    (by decide) (by decide) (by decide) (by decide)).2.2.1

theorem promptContactPart_unacked (classic pn : Bool) (tgt : Target) :
    ∃ q, promptContactPart classic pn tgt false = ANSI_BRED ++ q := by
  refine ⟨(if classic then "!".toList else []) ++
    ((if !classic then ANSI_INVERT else []) ++
     ((if pn && !classic then "🭬".toList else []) ++
      (tgt.advName ++
       ((if classic then ANSI_NORMAL ++ " > ".toList
         else ANSI_NORMAL ++ "🭬".toList) ++ ANSI_END)))), ?_⟩
  simp [promptContactPart, List.append_assoc]

theorem bred_infix_prompt (cl pn : Bool) (sn : PyStr) (tgt : Target) :
    ANSI_BRED <:+: buildPrompt true cl pn sn (some tgt) false := by
  obtain ⟨q, hq⟩ := promptContactPart_unacked cl pn tgt
  refine ⟨(if cl then [] else ANSI_INVERT) ++
    (if pn then ANSI_BGRAY ++ sn ++
      (if cl then " > ".toList else "🭨".toList) else []), q, ?_⟩
  simp only [buildPrompt, Bool.not_true, Bool.or_false, Option.some_beq_none,
    if_false]
  rw [hq]
  simp [List.append_assoc]

/-- C4: when a plain message line is sent to a chat contact and no
acknowledgment event carrying the expected token arrives within the
effective timeout, msg_ack's wait was started and returns the timeout
result (False), the loop iteration continues with `last_ack = false`
recorded, and the next prompt (rendered in colour mode with that state)
contains the bright-red unacknowledged marker. -/
theorem ack_timeout_marks_unacked (env : DeviceEnv) (reg : List ContactRec)
    (selfName : PyStr) (ln : Option Target) (st : LoopState) (line : PyStr)
    (c : Target) (exp : String) (sugg : ℚ) (cl pn : Bool)
    (hplain : isPlainMsgLine line = true)
    (hst : st.contact = some c) (htype : c.pyType = 1)
    (hsend : env.send_msg c line = .ok exp sugg)
    (hack : env.ack_within exp (msg_ack_timeout c.timeoutField sugg)
      = false) :
    msg_ack env c line
      = ⟨false, true, some (msg_ack_timeout c.timeoutField sugg)⟩ ∧
    interactStep env reg selfName ln st line
      = .next ⟨st.contact, st.prev_contact, false⟩ (.sendWithAck c line) ∧
    ANSI_BRED <:+: buildPrompt true cl pn selfName (some c) false := by
  have hma : msg_ack env c line
      = ⟨false, true, some (msg_ack_timeout c.timeoutField sugg)⟩ := by
    simp [msg_ack, hsend, hack]
  refine ⟨hma, ?_, bred_infix_prompt cl pn selfName c⟩
  rw [step_plain_chat env reg selfName ln st line c hplain hst htype, hma]

/-- C4 witness: sending "hello" to Bob with a 5000 ms suggestion and no
override, where no matching ack arrives: the wait is started with timeout
6 s, returns False, the step continues with `last_ack = false`, and the
prompt holds the marker. -/
theorem ack_timeout_marks_unacked_witness :
    msg_ack envOk (.contact bobC) ("hello".toList)
      = ⟨false, true, some 6⟩ ∧
    interactStep envOk [] ("me".toList) none
      ⟨some (.contact bobC), none, true⟩ ("hello".toList)
      = .next ⟨some (.contact bobC), none, false⟩
          (.sendWithAck (.contact bobC) ("hello".toList)) ∧
    ANSI_BRED <:+:
      buildPrompt true true true ("me".toList) (some (.contact bobC))
        false := by
  have h := ack_timeout_marks_unacked envOk [] ("me".toList) none
    ⟨some (.contact bobC), none, true⟩ ("hello".toList) (.contact bobC)
    "00ff" 5000 true true (by decide) rfl rfl rfl rfl
  have e : msg_ack_timeout (Target.contact bobC).timeoutField 5000 = 6 := by
    norm_num [msg_ack_timeout, Target.timeoutField, bobC]
  obtain ⟨w1, w2, w3⟩ := h
  rw [e] at w1
  exact ⟨w1, w2, w3⟩

/-- C5 counterexample: with the current target being Channel 0, the line
"send hi" is dispatched through msg_ack (the explicit send prefix), which
does start an acknowledgment wait once the device accepts the send —
refuting "no acknowledgment wait is ever started" for channel targets. -/
theorem channel_send_prefix_waits_cex :
    interactStep envOk [] ("me".toList) none
      ⟨some (.channel ("public".toList) 0), none, true⟩ ("send hi".toList)
      = .next ⟨some (.channel ("public".toList) 0), none, false⟩
          (.sendWithAck (.channel ("public".toList) 0) ("hi".toList)) ∧
    (msg_ack envOk (.channel ("public".toList) 0) ("hi".toList)).waited
      = true := by
  exact ⟨by decide, by decide⟩

/-- C5 amended: a plain message line (no `send`/quote prefix, no `!`
reply) entered while the current target is a Channel is fire-and-forget:
it is dispatched as a channel send whose handler contains no
acknowledgment wait (only a device error is reported); lines using the
explicit `send`/quote prefix instead go through msg_ack and do wait. -/
theorem channel_plain_send_fire_and_forget (env : DeviceEnv)
    (reg : List ContactRec) (selfName : PyStr) (ln : Option Target)
    (st : LoopState) (line nm : PyStr) (nb : Int)
    (hplain : isPlainMsgLine line = true)
    (hst : st.contact = some (.channel nm nb)) :
    interactStep env reg selfName ln st line
      = .next st (.chanSend nb line) ∧
    (∀ k : Int, ∀ t : PyStr, (chan_cmd env k t).waited = false) := by
  refine ⟨step_plain_channel env reg selfName ln st line nm nb hplain hst,
    ?_⟩
  intro k t
  cases h : env.send_chan_msg k t <;> simp [chan_cmd, h]

/-- C5 amended witness: "hello" at Channel 0 dispatches as a channel send
and the chan command performs no wait. -/
theorem channel_plain_send_fire_and_forget_witness :
    interactStep envOk [] ("me".toList) none
      ⟨some (.channel ("public".toList) 0), none, true⟩ ("hello".toList)
      = .next ⟨some (.channel ("public".toList) 0), none, true⟩
          (.chanSend 0 ("hello".toList)) ∧
    (chan_cmd envOk 0 ("hello".toList)).waited = false := by
  have h := channel_plain_send_fire_and_forget envOk [] ("me".toList) none
    ⟨some (.channel ("public".toList) 0), none, true⟩ ("hello".toList)
    ("public".toList) 0 (by decide) rfl
  exact ⟨h.1, h.2 0 ("hello".toList)⟩

/-- C6: evaluating the interactive loop at the line "to chx" with no
contact named "chx": `int("x")` raises an uncaught ValueError, so the
iteration raises instead of reporting NotFound and continuing — the code
bug behind the claim. -/
theorem malformed_channel_token_raises :
    interactStep env0 [] ("me".toList) none ⟨none, none, true⟩
      ("to chx".toList) = .raise ∧
    pyInt ("x".toList) = none := by
  exact ⟨by decide, by decide⟩

/-- C7 counterexample: a direct (PRIV) message whose sender's key prefix
matches no registry contact leaves the LastSender slot unchanged (here it
still holds the previously delivering channel), refuting "overwritten on
every inbound message event" / "set to the sending contact". -/
theorem unknown_sender_keeps_last_node_cex :
    process_event_last_node [] false
      (some ⟨"PRIV".toList, "ab".toList, 0⟩)
      (some (.channel ("public".toList) 0))
      = some (.channel ("public".toList) 0) := by decide

/-- C7 amended: in display (non-JSON) mode, a direct message overwrites
LastSender with the sending contact exactly when the sender's key prefix
resolves to a known contact (an unknown sender leaves the slot unchanged),
and a channel message always overwrites it with the delivering channel. -/
theorem last_node_update_policy (reg : List ContactRec)
    (prev : Option Target) (ev : MsgEvent) :
    (ev.mtype = "PRIV".toList →
      (∀ ct, get_contact_by_key_pfx reg ev.pubkey_pfx = some ct →
        process_event_last_node reg false (some ev) prev
          = some (.contact ct)) ∧
      (get_contact_by_key_pfx reg ev.pubkey_pfx = none →
        process_event_last_node reg false (some ev) prev = prev)) ∧
    (ev.mtype = "CHAN".toList →
      process_event_last_node reg false (some ev) prev
        = some (if ev.channel_idx = 0 then .channel ("public".toList) 0
                else .channel (("ch".toList) ++ pyIntRepr ev.channel_idx)
                  ev.channel_idx)) := by
  constructor
  · intro hm
    constructor
    · intro ct hct
      simp [process_event_last_node, hm, hct]
    · intro hct
      simp [process_event_last_node, hm, hct]
  · intro hm
    by_cases h0 : ev.channel_idx = 0 <;>
      simp [process_event_last_node, hm, h0]

/-- C7 amended witness: a PRIV message from the known prefix "ab" sets the
slot to Bob; a CHAN message on channel 2 sets it to the ch2 pseudo-target. -/
theorem last_node_update_policy_witness :
    process_event_last_node [bobC] false
      (some ⟨"PRIV".toList, "ab".toList, 0⟩) none
      = some (.contact bobC) ∧
    process_event_last_node [] false
      (some ⟨"CHAN".toList, [], 2⟩) none
      = some (.channel ("ch2".toList) 2) := by
  have h1 := ((last_node_update_policy [bobC] none
    ⟨"PRIV".toList, "ab".toList, 0⟩).1 rfl).1 bobC (by decide)
  have h2 := (last_node_update_policy [] none
    ⟨"CHAN".toList, [], 2⟩).2 rfl
  refine ⟨h1, ?_⟩
  rw [h2]
  decide

/-- C8 counterexample: with LastSender unset and the current target Bob,
the line "to !" silently resolves "!" to the root target and changes the
current target to root (pushing Bob into the undo slot) instead of
reporting "no message received yet" and leaving the target unchanged. -/
theorem to_bang_unset_changes_target_cex :
    interactStep env0 [] ("me".toList) none
      ⟨some (.contact bobC), none, true⟩ ("to !".toList)
      = .next ⟨none, some (.contact bobC), true⟩ .nop := by decide

/-- C8 amended: with LastSender unset, a "!"-prefixed reply line prints
"No received msg yet !", performs no send and leaves the whole state
unchanged; the navigation "to !", however, resolves "!" to the root
target, so when the current target is not root it silently changes the
target to root and pushes the old target into the undo slot. -/
theorem bang_reply_no_last_sender (env : DeviceEnv) (reg : List ContactRec)
    (selfName : PyStr) (st : LoopState) (rest : PyStr) :
    interactStep env reg selfName none st ('!' :: rest)
      = .next st .printNoMsgYet ∧
    (get_contact_by_name reg ("!".toList) = none →
      selfName ≠ "!".toList → st.contact ≠ none →
      interactStep env reg selfName none st ("to !".toList)
        = .next ⟨none, st.contact, true⟩ .nop) := by
  constructor
  · simp [interactStep, pyStartsWith, List.isPrefixOf]
  · intro hreg hself hct
    have hreg' : get_contact_by_name reg ['!'] = none := hreg
    have hself' : ((['!'] : PyStr) == selfName) = false := by
      rw [beq_eq_false_iff_ne]
      intro h
      exact hself (by rw [← h]; rfl)
    have hres : resolveDest reg selfName st.contact st.prev_contact none
        ['!'] = .ok none := by
      simp [resolveDest, hreg', pyStartsWith, List.isPrefixOf, hself']
    have hne : (none : Option Target) ≠ st.contact := fun h => hct h.symm
    simp [interactStep, toStep, isQuotedDest, pyStartsWith,
      List.isPrefixOf, hres, hne]

/-- C8 amended witness: at concrete inputs, "!hello" with LastSender unset
prints the diagnostic with no state change, and "to !" moves Bob's session
to root. -/
theorem bang_reply_no_last_sender_witness :
    interactStep env0 [] ("me".toList) none
      ⟨some (.contact bobC), none, true⟩ ("!hello".toList)
      = .next ⟨some (.contact bobC), none, true⟩ .printNoMsgYet ∧
    interactStep env0 [] ("me".toList) none
      ⟨some (.contact bobC), none, true⟩ ("to !".toList)
      = .next ⟨none, some (.contact bobC), true⟩ .nop := by
  have h := bang_reply_no_last_sender env0 [] ("me".toList)
    ⟨some (.contact bobC), none, true⟩ ("hello".toList)
  exact ⟨h.1, h.2 (by decide) (by decide) (by decide)⟩

theorem find?_eraseP_of_count_le_one {α : Type} (l : List α) (p : α → Bool)
    (h : (l.filter p).length ≤ 1) : (l.eraseP p).find? p = none := by
  induction l with
  | nil => simp
  | cons a tl ih =>
      by_cases hp : p a = true
      · rw [List.eraseP_cons_of_pos hp]
        rw [List.find?_eq_none]
        intro x hx
        have hfil : (tl.filter p).length = 0 := by
          rw [List.filter_cons_of_pos hp] at h
          simp only [List.length_cons] at h
          omega
        have : tl.filter p = [] := List.length_eq_zero.mp hfil
        exact (List.filter_eq_nil_iff.mp this) x hx
      · rw [List.eraseP_cons_of_neg hp, List.find?_cons_of_neg _ hp]
        exact ih (by rwa [List.filter_cons_of_neg hp] at h)

/-- C9 counterexample: when an already-confirmed contact shares the display
name "Bob", the promoted pending record (identity "yy") is moved out of
pending but is not what find-by-name returns — first-match-wins yields the
older contact, so the promoted contact is not findable by its display
name. -/
theorem promote_name_collision_cex :
    (add_pending_cmd true
      ⟨[⟨"xx".toList, "Bob".toList, 1, none⟩],
       [⟨"yy".toList, "Bob".toList, 1, none⟩]⟩ ("yy".toList)).2 = true ∧
    (add_pending_cmd true
      ⟨[⟨"xx".toList, "Bob".toList, 1, none⟩],
       [⟨"yy".toList, "Bob".toList, 1, none⟩]⟩ ("yy".toList)).1.pending
      = [] ∧
    get_contact_by_name
      (add_pending_cmd true
        ⟨[⟨"xx".toList, "Bob".toList, 1, none⟩],
         [⟨"yy".toList, "Bob".toList, 1, none⟩]⟩ ("yy".toList)).1.contacts
      ("Bob".toList) = some ⟨"xx".toList, "Bob".toList, 1, none⟩ ∧
    (⟨"xx".toList, "Bob".toList, 1, none⟩ : ContactRec)
      ≠ ⟨"yy".toList, "Bob".toList, 1, none⟩ := by
  exact ⟨by decide, by decide, by decide, by decide⟩

/-- C9 amended: promoting a pending contact is a move — after a successful
promotion the entry is gone from the pending list and not copied back, and
the promoted record (carrying the identity and display name of the pending
record) is stored in the confirmed registry and is findable by its display
name provided no earlier confirmed contact shares that name (display-name
lookup is first-match-wins) and its key is new to the confirmed dict. -/
theorem promote_moves_pending (contacts pending : List ContactRec)
    (c : ContactRec)
    (hfind : pending.find? (fun p => p.public_key == c.public_key)
      = some c)
    (hcount : (pending.filter
      (fun p => p.public_key == c.public_key)).length ≤ 1)
    (hname : get_contact_by_name contacts c.adv_name = none)
    (hkey : contacts.all (fun x => !(x.public_key == c.public_key))
      = true) :
    (add_pending_cmd true ⟨contacts, pending⟩ c.public_key).2 = true ∧
    ((add_pending_cmd true ⟨contacts, pending⟩ c.public_key).1.pending.find?
      (fun p => p.public_key == c.public_key)) = none ∧
    get_contact_by_name
      (add_pending_cmd true ⟨contacts, pending⟩ c.public_key).1.contacts
      c.adv_name = some c := by
  have hany : contacts.any (fun x => x.public_key == c.public_key)
      = false := by
    rw [← Bool.not_eq_true, List.any_eq_true]
    rintro ⟨x, hx, hpx⟩
    have := (List.all_eq_true.mp hkey) x hx
    rw [hpx] at this
    exact absurd this (by decide)
  have hins : dictInsert contacts c = contacts ++ [c] := by
    simp [dictInsert, hany]
  simp only [add_pending_cmd, hfind, if_true]
  refine ⟨trivial, find?_eraseP_of_count_le_one pending _ hcount, ?_⟩
  unfold get_contact_by_name at hname ⊢
  rw [hins, List.find?_append, hname]
  simp

/-- C9 amended witness: promoting pending Bob into an empty confirmed
registry succeeds, empties pending, and makes Bob findable by name. -/
theorem promote_moves_pending_witness :
    (add_pending_cmd true ⟨[], [bobC]⟩ ("abcd".toList)).2 = true ∧
    ((add_pending_cmd true ⟨[], [bobC]⟩ ("abcd".toList)).1.pending.find?
      (fun p => p.public_key == ("abcd".toList))) = none ∧
    get_contact_by_name
      (add_pending_cmd true ⟨[], [bobC]⟩ ("abcd".toList)).1.contacts
      ("Bob".toList) = some bobC := by
  exact promote_moves_pending [] [bobC] bobC (by decide) (by decide)
    (by decide) (by decide)

/-- C10: a "!"-prefixed reply sent to a direct-message LastSender (type
not 0): when msg_ack fails (send error or ack timeout) the step sets the
current target to that sender without touching the previous-target undo
slot; when msg_ack succeeds the current target is unchanged. -/
theorem bang_reply_ack_failure_retarget (env : DeviceEnv)
    (reg : List ContactRec) (selfName : PyStr) (st : LoopState)
    (rest : PyStr) (ln : Target) (hln : ln.pyType ≠ 0) :
    ((msg_ack env ln rest).result = false →
      interactStep env reg selfName (some ln) st ('!' :: rest)
        = .next ⟨some ln, st.prev_contact, false⟩ (.sendWithAck ln rest)) ∧
    ((msg_ack env ln rest).result = true →
      interactStep env reg selfName (some ln) st ('!' :: rest)
        = .next ⟨st.contact, st.prev_contact, true⟩
            (.sendWithAck ln rest)) := by
  have hty : (ln.pyType == 0) = false := by
    simpa using hln
  constructor <;> intro hres <;>
    simp [interactStep, pyStartsWith, List.isPrefixOf, hty, hres]

/-- C10 witness: with a failing send, replying "!hi" to LastSender Bob
retargets the session to Bob with the undo slot untouched. -/
theorem bang_reply_ack_failure_retarget_witness :
    interactStep env0 [] ("me".toList) (some (.contact bobC))
      ⟨none, none, true⟩ ("!hi".toList)
      = .next ⟨some (.contact bobC), none, false⟩
          (.sendWithAck (.contact bobC) ("hi".toList)) := by
  exact (bang_reply_ack_failure_retarget env0 [] ("me".toList)
    ⟨none, none, true⟩ ("hi".toList) (.contact bobC) (by decide)).1 rfl

example : pyInt ("3".toList) = some 3 := by decide
example : pyInt ("x".toList) = none := by decide
example : pyInt ("".toList) = none := by decide
example : pyInt (" 42 ".toList) = some 42 := by decide
example : pyInt ("-7".toList) = some (-7) := by decide
example : pyInt ("1_0".toList) = some 10 := by decide
example : pyInt ("1_".toList) = none := by decide
example : msg_ack_timeout none 5000 = 6 := by norm_num [msg_ack_timeout]

end MeshcoreCli
